import Mathlib

/-!
Verification development for the evasion-messenger endpoint library
(`lib/evasion/messenger/endpoint.py`): a shallow embedding of the
`Transceiver` (outbound send path, inbound frame receipt) and the
`Register` (signal validation, subscription table, inbound protocol
interpretation, publish encoding), together with theorems about the
behaviours the design documents.

Modelling conventions:
* Python exceptions become an explicit `PyError` value threaded through
  `Except` or recorded in a result record's `error` field.
* Network side effects of a send become an explicit ordered `NetEvent`
  trace.
* Subscriber callbacks are modelled by an identity (`cid`) plus a flag
  saying whether the call raises; an actual call is recorded as an
  `Invocation`.
* `json.loads` / `json.dumps` from the Python standard library are
  modelled by an executable encoder and recursive-descent decoder for
  the JSON subset the endpoint exchanges (null, booleans, integers,
  strings, flat objects); nothing below depends on more of JSON than
  that a decode either succeeds with a value or fails with ValueError.
-/

namespace EvasionMessenger

/-- Equality of `Except` results is decidable componentwise. -/
instance {e a : Type} [DecidableEq e] [DecidableEq a] : DecidableEq (Except e a) := fun x y =>
  match x, y with
  | .ok u, .ok v => if h : u = v then .isTrue (by rw [h]) else .isFalse (by simp [h])
  | .error u, .error v => if h : u = v then .isTrue (by rw [h]) else .isFalse (by simp [h])
  | .ok _, .error _ => .isFalse (by simp)
  | .error _, .ok _ => .isFalse (by simp)

/-- The whitespace set of Python's `str.strip()`. -/
def isPyWs (c : Char) : Bool :=
  c = ' ' ∨ c = '\t' ∨ c = '\n' ∨ c = '\r' ∨ c = Char.ofNat 11 ∨ c = Char.ofNat 12

/-- Python `s.strip()`. -/
def pyStrip (s : String) : String :=
  String.mk (((s.data.dropWhile isPyWs).reverse.dropWhile isPyWs).reverse)

/-- Python `s.upper()` (on the ASCII signals the endpoint uses). -/
def pyUpper (s : String) : String := String.mk (s.data.map Char.toUpper)

/-- Python `s.lower()` (on the ASCII commands the endpoint uses). -/
def pyLower (s : String) : String := String.mk (s.data.map Char.toLower)

/-- Python exception classes that appear in `endpoint.py`'s control flow. -/
inductive PyError where
  | valueError
  | indexError
  | messageOutError
deriving DecidableEq

/-- A scalar JSON value. -/
inductive JVal where
  | null
  | jbool (b : Bool)
  | jnum (n : Int)
  | jstr (s : String)
deriving DecidableEq

/-- A JSON document: a scalar or a flat object (the shapes the endpoint
exchanges: `\x7b\x7d`, `dict(version=...)`, small data dicts). -/
inductive Json where
  | scalar (v : JVal)
  | obj (kvs : List (String × JVal))
deriving DecidableEq

/-- Serialise a scalar the way `json.dumps` prints it. -/
def dumpJVal : JVal → String
  | .null => "null"
  | .jbool true => "true"
  | .jbool false => "false"
  | .jnum n => toString n
  | .jstr s => "\x22" ++ s ++ "\x22"

/-- Model of `json.dumps` on the supported subset. -/
def json_dumps : Json → String
  | .scalar v => dumpJVal v
  | .obj kvs =>
      "\x7b" ++
      String.intercalate ", "
        (kvs.map (fun kv => "\x22" ++ kv.1 ++ "\x22: " ++ dumpJVal kv.2)) ++
      "\x7d"

def quoteChar : Char := Char.ofNat 34

def lbraceChar : Char := Char.ofNat 123

def rbraceChar : Char := Char.ofNat 125

/-- Drop leading JSON whitespace. -/
def skipWs : List Char → List Char
  | [] => []
  | c :: cs => if c = ' ' ∨ c = '\t' ∨ c = '\n' ∨ c = '\r' then skipWs cs else c :: cs

/-- Read the characters of a string literal up to the closing quote. -/
def scanJStr : List Char → Option (List Char × List Char)
  | [] => none
  | c :: cs =>
      if c = quoteChar then some ([], cs)
      else
        match scanJStr cs with
        | some (acc, rest) => some (c :: acc, rest)
        | none => none

/-- Split a leading run of digits off the input. -/
def takeDigits : List Char → List Char × List Char
  | [] => ([], [])
  | c :: cs =>
      if c.isDigit then
        let (ds, rest) := takeDigits cs
        (c :: ds, rest)
      else ([], c :: cs)

def digitsToNat (ds : List Char) : Nat :=
  ds.foldl (fun a c => a * 10 + (c.toNat - 48)) 0

/-- Parse one scalar JSON value from the front of the input. -/
def parseJVal (cs : List Char) : Option (JVal × List Char) :=
  match cs with
  | [] => none
  | c :: rest =>
      if c = quoteChar then
        match scanJStr rest with
        | some (acc, rest1) => some (.jstr (String.mk acc), rest1)
        | none => none
      else if c = '-' then
        match takeDigits rest with
        | ([], _) => none
        | (ds, rest1) => some (.jnum (-(digitsToNat ds : Int)), rest1)
      else if c.isDigit then
        match takeDigits (c :: rest) with
        | (ds, rest1) => some (.jnum (digitsToNat ds), rest1)
      else if cs.take 4 = ['n', 'u', 'l', 'l'] then some (.null, cs.drop 4)
      else if cs.take 4 = ['t', 'r', 'u', 'e'] then some (.jbool true, cs.drop 4)
      else if cs.take 5 = ['f', 'a', 'l', 's', 'e'] then some (.jbool false, cs.drop 5)
      else none

/-- Parse the `"key": value` pairs of an object body, consuming the
closing brace; fuelled by the input length. -/
def parsePairs : Nat → List Char → Option (List (String × JVal) × List Char)
  | 0, _ => none
  | fuel + 1, cs =>
      match skipWs cs with
      | [] => none
      | c :: rest =>
          if c = quoteChar then
            match scanJStr rest with
            | none => none
            | some (kcs, rest1) =>
                match skipWs rest1 with
                | ':' :: rest2 =>
                    match parseJVal (skipWs rest2) with
                    | none => none
                    | some (v, rest3) =>
                        match skipWs rest3 with
                        | ',' :: rest4 =>
                            match parsePairs fuel rest4 with
                            | some (kvs, rest5) => some ((String.mk kcs, v) :: kvs, rest5)
                            | none => none
                        | c2 :: rest4 =>
                            if c2 = rbraceChar then some ([(String.mk kcs, v)], rest4)
                            else none
                        | [] => none
                | _ => none
          else none

/-- Model of `json.loads`: succeeds with a value or fails with
ValueError, as the Python decoder does on malformed input. -/
def json_loads (s : String) : Except PyError Json :=
  match skipWs s.data with
  | [] => .error .valueError
  | c :: rest =>
      if c = lbraceChar then
        match skipWs rest with
        | [] => .error .valueError
        | c2 :: rest2 =>
            if c2 = rbraceChar then
              if (skipWs rest2).isEmpty then .ok (.obj []) else .error .valueError
            else
              match parsePairs (rest.length + 1) (c2 :: rest2) with
              | some (kvs, restEnd) =>
                  if (skipWs restEnd).isEmpty then .ok (.obj kvs) else .error .valueError
              | none => .error .valueError
      else
        match parseJVal (c :: rest) with
        | some (v, restEnd) =>
            if (skipWs restEnd).isEmpty then .ok (.scalar v) else .error .valueError
        | none => .error .valueError

/-! ## Transceiver (`endpoint.py` lines 20-146) -/

/-- A Python value passed to `Transceiver.message_out`; the code only
distinguishes lists/tuples (of frame fields) from everything else. -/
inductive PyObj where
  | list (xs : List String)
  | tuple (xs : List String)
  | str (s : String)
  | int (n : Int)
  | pyNone
deriving DecidableEq

/-- The `isinstance(message, list) or isinstance(message, tuple)` test. -/
def isSeq : PyObj → Bool
  | .list _ => true
  | .tuple _ => true
  | _ => false

def seqFields : PyObj → List String
  | .list xs => xs
  | .tuple xs => xs
  | _ => []

/-- One observable network side effect of the outbound send path. -/
inductive NetEvent where
  | connect (uri : String)
  | sendMultipart (frame : List String)
  | close
  | contextTerm
deriving DecidableEq

/-- Outcome of `Transceiver.message_out`: the ordered I/O trace and the
exception, if one was raised. -/
structure SendResult where
  events : List NetEvent
  error : Option PyError
deriving DecidableEq

/-- Modelled from the spec: `frames.sync_message` is code of this
repository not under `src/`; per the FrameCodec description,
`encodeSync()` builds the one-field frame `["SYNC"]`. -/
def sync_message : List String := ["SYNC"]

/-- `Transceiver.message_out` (lines 101-126): a list or tuple is sent on
a transient connection — connect, send the SYNC priming frame, send the
message, then close — while anything else raises MessageOutError before
any socket is created. -/
def message_out (outgoing_uri : String) (message : PyObj) : SendResult :=
  if isSeq message then
    { events := [ .connect outgoing_uri,
                  .sendMultipart sync_message,
                  .sendMultipart (seqFields message),
                  .close, .contextTerm ],
      error := none }
  else
    { events := [], error := some .messageOutError }

/-- Log lines the endpoint emits, abstracted to tags. -/
inductive LogMsg where
  | errorArity
  | errorNoVersion
  | errorUnknownCommand (c : String)
  | errorInvalidMessage
  | warnAlreadySubscribed
  | exceptionCallback (cid : Nat) (signal : String)
  | exceptionHandlingMessage
  | debugMessageIn
deriving DecidableEq

/-- Outcome of `Transceiver.message_in`: which frames were handed to the
registered handler, the log lines, and the exception (if any) that
escaped into the receive loop. -/
structure RecvResult where
  handlerCalls : List (List String)
  logs : List LogMsg
  error : Option PyError
deriving DecidableEq

/-- `Transceiver.message_in` (lines 130-146): hand the raw frame to the
registered handler inside a bare `except:` clause; a bare `except:`
catches every exception class, so a handler failure is logged and
nothing propagates into the receive loop. -/
def message_in (message_handler : Option (List String → Option PyError))
    (message : List String) : RecvResult :=
  match message_handler with
  | some h =>
      match h message with
      | none => ⟨[message], [.debugMessageIn], none⟩
      | some _e => ⟨[message], [.debugMessageIn, .exceptionHandlingMessage], none⟩
  | none => ⟨[], [.debugMessageIn], none⟩

/-! ## Register (`endpoint.py` lines 153-373) -/

/-- The argument passed to `Register.validate_signal`: a string, or some
non-string object (the code only tests `isinstance(signal, basestring)`). -/
inductive SignalArg where
  | str (s : String)
  | nonString
deriving DecidableEq

/-- `signal.strip().upper()` — the normalisation applied on the
subscribe and inbound-dispatch paths. -/
def pyNormalize (s : String) : String := pyUpper (pyStrip s)

/-- `Register.validate_signal` (lines 184-206): ValueError unless the
input is a string that is non-empty after stripping; returns the
stripped upper-cased form. -/
def validate_signal : SignalArg → Except PyError String
  | .str s =>
      let n := pyNormalize s
      if n = "" then .error .valueError else .ok n
  | .nonString => .error .valueError

/-- A subscriber callback: an identity plus whether invoking it raises. -/
structure Callback where
  cid : Nat
  raises : Bool
deriving DecidableEq

/-- The `Register._subscriptions` dict, as an insertion-ordered
association list from normalised signal to subscriber list. -/
abbrev Subs := List (String × List Callback)

def subsLookup : Subs → String → Option (List Callback)
  | [], _ => none
  | (k, v) :: rest, s => if k = s then some v else subsLookup rest s

/-- `self._subscriptions[signal] = []` on a key not yet present. -/
def subsSet (subs : Subs) (k : String) (v : List Callback) : Subs :=
  subs ++ [(k, v)]

/-- `self._subscriptions[signal].append(callback)`. -/
def subsAppendCb (subs : Subs) (k : String) (cb : Callback) : Subs :=
  subs.map (fun e => if e.1 = k then (e.1, e.2 ++ [cb]) else e)

def dictKeys (subs : Subs) : List String := subs.map Prod.fst

/-- The test `callback not in self._subscriptions` at line 341 iterates
the dict's KEYS — the signal strings — and compares each against the
callback. In Python a function object never compares equal to a string,
so every comparison is False and the containment test never succeeds. -/
def cbInKeys (subs : Subs) (cb : Callback) : Bool :=
  (dictKeys subs).any (fun _k => false)

/-- `Register.subscribe` (lines 306-344): validate the signal, create
its (empty) subscriber list if absent, then — because the duplicate
check at line 341 looks at the dict's keys, not at
`self._subscriptions[signal]` — append the callback. -/
def subscribe (subs : Subs) (signal : SignalArg) (cb : Callback) :
    Except PyError (Subs × List LogMsg) :=
  match validate_signal signal with
  | .error e => .error e
  | .ok s =>
      let subs1 := if (subsLookup subs s).isSome then subs else subsSet subs s []
      if cbInKeys subs1 cb then
        .ok (subs1, [.warnAlreadySubscribed])
      else
        .ok (subsAppendCb subs1 s cb, [])

/-- One recorded callback invocation: which callback, with which
arguments `(endpoint_uuid, data, reply_to-or-None)`. -/
structure Invocation where
  cid : Nat
  origin : String
  data : Json
  replyTo : Option String
deriving DecidableEq

/-- What a dispatch produced: the invocations in order, and the log
lines from callbacks that raised. -/
structure DispatchResult where
  invocations : List Invocation
  logs : List LogMsg
deriving DecidableEq

/-- The subscriber loop of `handle_dispath_message` (lines 229-233):
every subscriber is called in order; a raising callback is logged by the
per-callback `except:` and the loop continues. -/
def runCallbacks (u sigName : String) (d : Json) (rt : Option String) :
    List Callback → DispatchResult
  | [] => ⟨[], []⟩
  | cb :: rest =>
      let r := runCallbacks u sigName d rt rest
      ⟨⟨cb.cid, u, d, rt⟩ :: r.invocations,
       (if cb.raises then [.exceptionCallback cb.cid sigName] else []) ++ r.logs⟩

/-- `Register.handle_dispath_message` (lines 219-236): normalise the
signal (ValueError propagates), look up the subscribers, call each with
the reply-to mapped from the `"0"` sentinel to None. -/
def handle_dispath_message (subs : Subs) (u signal : String) (d : Json)
    (reply_to : String) : Except PyError DispatchResult :=
  match validate_signal (.str signal) with
  | .error e => .error e
  | .ok s =>
      match subsLookup subs s with
      | some cbs =>
          .ok (runCallbacks u s d (if reply_to = "0" then none else some reply_to) cbs)
      | none => .ok ⟨[], []⟩

/-- Python tuple unpacking `a, b, c, d = xs`: raises ValueError (never
IndexError) unless `xs` has exactly four elements. -/
def unpack4 (xs : List String) :
    Except PyError (String × String × String × String) :=
  match xs with
  | [a, b, c, d] => .ok (a, b, c, d)
  | _ => .error .valueError

/-- `command_args[0]`: IndexError on an empty sequence. -/
def pyIndex (xs : List String) (i : Nat) : Except PyError String :=
  match xs.get? i with
  | some x => .ok x
  | none => .error .indexError

/-- The `try:` body of the dispatch branch (lines 281-284): unpack the
four fields, JSON-decode the data, dispatch. -/
def dispatchTry (subs : Subs) (command_args : List String) :
    Except PyError DispatchResult :=
  match unpack4 command_args with
  | .error e => .error e
  | .ok (u, s, dstr, rt) =>
      match json_loads dstr with
      | .error e => .error e
      | .ok d => handle_dispath_message subs u s d rt

/-- The `try:` body of the hub_present branch (lines 289-291);
`handle_hub_present_message` is an observation hook that does nothing. -/
def hubPresentTry (command_args : List String) : Except PyError Unit :=
  match pyIndex command_args 0 with
  | .error e => .error e
  | .ok a0 =>
      match json_loads a0 with
      | .error e => .error e
      | .ok _d => .ok ()

/-- Outcome of `Register.message_handler` on one frame: the subscription
table afterwards, the invocations, the logs, and the exception that
escaped the method, if any. -/
structure HandlerResult where
  subs : Subs
  invocations : List Invocation
  logs : List LogMsg
  error : Option PyError
deriving DecidableEq

/-- The `except IndexError:` clause around the dispatch try body (line
285): IndexError is logged and swallowed; any other exception — in
particular the ValueError from a failed unpacking — propagates. -/
def dispatchHandled (subs : Subs) : Except PyError DispatchResult → HandlerResult
  | .ok r => ⟨subs, r.invocations, r.logs, none⟩
  | .error .indexError => ⟨subs, [], [.errorArity], none⟩
  | .error e => ⟨subs, [], [], some e⟩

/-- The `except IndexError:` clause around the hub_present try body
(line 292). -/
def hubPresentHandled (subs : Subs) : Except PyError Unit → HandlerResult
  | .ok _ => ⟨subs, [], [], none⟩
  | .error .indexError => ⟨subs, [], [.errorNoVersion], none⟩
  | .error e => ⟨subs, [], [], some e⟩

/-- `message[0]` followed by `if command and isinstance(...):
command = command.strip().lower()` — an empty first field is falsy and
is left as is. -/
def normCommand (c : String) : String :=
  if c = "" then c else pyLower (pyStrip c)

/-- `Register.message_handler` (lines 252-303): interpret one inbound
multi-part frame. -/
def message_handler (subs : Subs) (message : List String) : HandlerResult :=
  if 0 < message.length then
    let command := normCommand (message.headD "")
    let command_args := if 1 < message.length then message.drop 1 else []
    if command = "dispatch" then
      dispatchHandled subs (dispatchTry subs command_args)
    else if command = "hub_present" then
      hubPresentHandled subs (hubPresentTry command_args)
    else if command = "sync" then
      ⟨subs, [], [], none⟩
    else
      ⟨subs, [], [.errorUnknownCommand command], none⟩
  else
    ⟨subs, [], [.errorInvalidMessage], none⟩

/-- Modelled from the spec: `frames.dispatch_message` is code of this
repository not under `src/`; per the FrameCodec description,
`encodeDispatch(originId, signal, data, replyTo)` builds
`["DISPATCH", originId, signal, jsonEncode(data), replyTo or "0"]`, and
`Register.publish` calls it without a replyTo argument, so the reply
field is the `"0"` sentinel. -/
def dispatch_message (endpoint_uuid signal : String) (data : Json) : PyObj :=
  .list ["DISPATCH", endpoint_uuid, signal, json_dumps data, "0"]

/-- `Register.publish` (lines 358-373): encode a DISPATCH frame from the
registry's endpoint id, the signal argument and the data, and hand it to
`Transceiver.message_out`. No normalisation or validation happens on
this path. -/
def publish (endpoint_uuid outgoing_uri signal : String) (data : Json) :
    SendResult :=
  message_out outgoing_uri (dispatch_message endpoint_uuid signal data)

/-! ## Helper lemmas -/

theorem cbInKeys_false (subs : Subs) (cb : Callback) : cbInKeys subs cb = false := by
  simp [cbInKeys]

theorem subsLookup_append_new (subs : Subs) (k : String) (v : List Callback)
    (h : subsLookup subs k = none) : subsLookup (subsSet subs k v) k = some v := by
  induction subs with
  | nil => simp [subsSet, subsLookup]
  | cons e rest ih =>
      obtain ⟨k', v'⟩ := e
      by_cases hk : k' = k
      · simp [subsLookup, hk] at h
      · simp only [subsSet, List.cons_append, subsLookup, if_neg hk] at h ⊢
        exact ih h

theorem subsLookup_appendCb (subs : Subs) (k : String) (cb : Callback) (l : List Callback)
    (h : subsLookup subs k = some l) :
    subsLookup (subsAppendCb subs k cb) k = some (l ++ [cb]) := by
  induction subs with
  | nil => simp [subsLookup] at h
  | cons e rest ih =>
      obtain ⟨k', v'⟩ := e
      by_cases hk : k' = k
      · subst hk
        simp only [subsLookup, if_pos, Option.some_inj] at h
        have hstep : subsAppendCb ((k', v') :: rest) k' cb =
            (k', v' ++ [cb]) :: subsAppendCb rest k' cb := by
          simp [subsAppendCb]
        rw [hstep]
        simp [subsLookup, h]
      · simp only [subsLookup, if_neg hk] at h
        have hstep : subsAppendCb ((k', v') :: rest) k cb =
            (k', v') :: subsAppendCb rest k cb := by
          simp [subsAppendCb, hk]
        rw [hstep]
        simp only [subsLookup, if_neg hk]
        exact ih h

theorem subscribe_normalized_nonempty (subs : Subs) (s : String) (cb : Callback)
    (r : Subs × List LogMsg) (h : subscribe subs (.str s) cb = .ok r) :
    pyNormalize s ≠ "" := by
  intro hn
  simp [subscribe, validate_signal, hn] at h

theorem subscribe_lookup (subs subs' : Subs) (lg : List LogMsg) (s : String) (cb : Callback)
    (h : subscribe subs (.str s) cb = .ok (subs', lg)) :
    ∃ l, subsLookup subs' (pyNormalize s) = some (l ++ [cb]) := by
  have hn : pyNormalize s ≠ "" := subscribe_normalized_nonempty subs s cb (subs', lg) h
  simp only [subscribe, validate_signal, if_neg hn, cbInKeys_false, Bool.false_eq_true,
    if_false, Except.ok.injEq, Prod.mk.injEq] at h
  obtain ⟨hsubs, -⟩ := h
  cases hl : subsLookup subs (pyNormalize s) with
  | some l0 =>
      refine ⟨l0, ?_⟩
      rw [← hsubs]
      simp only [hl, Option.isSome_some, if_true]
      exact subsLookup_appendCb subs (pyNormalize s) cb l0 hl
  | none =>
      refine ⟨[], ?_⟩
      rw [← hsubs]
      simp only [hl, Option.isSome_none, Bool.false_eq_true, if_false]
      exact subsLookup_appendCb _ (pyNormalize s) cb []
        (subsLookup_append_new subs (pyNormalize s) [] hl)

theorem runCallbacks_cids (u s : String) (d : Json) (rt : Option String)
    (cbs : List Callback) :
    (runCallbacks u s d rt cbs).invocations.map Invocation.cid = cbs.map Callback.cid := by
  induction cbs with
  | nil => rfl
  | cons cb rest ih => simp [runCallbacks, ih]

theorem runCallbacks_replyTo (u s : String) (d : Json) (rt : Option String)
    (cbs : List Callback) :
    ∀ inv ∈ (runCallbacks u s d rt cbs).invocations, inv.replyTo = rt := by
  induction cbs with
  | nil => intro inv hmem; simp [runCallbacks] at hmem
  | cons cb rest ih =>
      intro inv hmem
      simp only [runCallbacks, List.mem_cons] at hmem
      rcases hmem with hmem | hmem
      · subst hmem; rfl
      · exact ih inv hmem

theorem runCallbacks_raise_logged (u s : String) (d : Json) (rt : Option String)
    (cbs : List Callback) :
    ∀ cb ∈ cbs, cb.raises = true →
      LogMsg.exceptionCallback cb.cid s ∈ (runCallbacks u s d rt cbs).logs := by
  induction cbs with
  | nil => intro cb hmem; simp at hmem
  | cons c rest ih =>
      intro cb hmem hr
      simp only [List.mem_cons] at hmem
      rcases hmem with hmem | hmem
      · subst hmem
        simp [runCallbacks, hr]
      · simp only [runCallbacks, List.mem_append]
        exact Or.inr (ih cb hmem hr)

theorem normCommand_DISPATCH : normCommand "DISPATCH" = "dispatch" := by decide

theorem message_handler_dispatch (subs : Subs) (u s dstr rt : String) :
    message_handler subs ["DISPATCH", u, s, dstr, rt] =
      dispatchHandled subs (dispatchTry subs [u, s, dstr, rt]) := by
  simp [message_handler, normCommand_DISPATCH]

/-! ## Claim theorems -/

/-- Claim C1 (code bug): the spec says re-subscribing the same callback to
the same signal is a no-op, and so does `subscribe`'s own docstring and
warn branch — but the duplicate check at line 341 tests membership among
the dict's keys instead of the signal's subscriber list, so the second
`subscribe("tea_time", cb)` appends `cb` again and a matching dispatch
invokes it twice. -/
theorem C1_duplicate_subscribe_appends :
    subscribe [] (.str "tea_time") ⟨7, false⟩ =
      .ok ([("TEA_TIME", [⟨7, false⟩])], []) ∧
    subscribe [("TEA_TIME", [⟨7, false⟩])] (.str "tea_time") ⟨7, false⟩ =
      .ok ([("TEA_TIME", [⟨7, false⟩, ⟨7, false⟩])], []) ∧
    (message_handler [("TEA_TIME", [⟨7, false⟩, ⟨7, false⟩])]
        ["DISPATCH", "u", "tea_time", "\x7b\x7d", "0"]).invocations.map Invocation.cid =
      [7, 7] :=
  ⟨by decide, by decide, by decide⟩

/-- Claim C2 (counterexample): `publish` hands the signal to the frame
encoder exactly as given — `publish` of `" tea_time "` puts the raw
string, not its normalised form `"TEA_TIME"`, into the DISPATCH frame. -/
theorem C2_publish_keeps_raw_signal :
    publish "EP1" "tcp://localhost:15567" " tea_time " (.obj []) =
      ⟨[.connect "tcp://localhost:15567", .sendMultipart ["SYNC"],
        .sendMultipart ["DISPATCH", "EP1", " tea_time ", "\x7b\x7d", "0"],
        .close, .contextTerm], none⟩ ∧
    pyNormalize " tea_time " = "TEA_TIME" ∧
    (" tea_time " : String) ≠ "TEA_TIME" :=
  ⟨by decide, by decide, by decide⟩

/-- Claim C2 (amended): for every signal string and data value,
`publish` encodes a DISPATCH frame carrying the registry's endpoint id,
the signal exactly as given (no normalisation happens on the publish
path), the JSON-encoded data and the `"0"` reply sentinel, and hands it
to the Transceiver's send operation. -/
theorem C2_publish_encodes_dispatch (u uri s : String) (d : Json) :
    publish u uri s d =
      ⟨[.connect uri, .sendMultipart sync_message,
        .sendMultipart ["DISPATCH", u, s, json_dumps d, "0"],
        .close, .contextTerm], none⟩ := rfl

/-- Claim C3 (code bug): a DISPATCH frame with fewer than 4 argument
fields makes the unpacking raise ValueError, which the `except
IndexError:` clause does not catch — the exception escapes
`Register.message_handler` with nothing logged and is only stopped one
level up by the bare `except:` of `Transceiver.message_in`. -/
theorem C3_short_dispatch_exception_escapes :
    message_handler [("SIG", [⟨1, false⟩])] ["DISPATCH", "u", "SIG"] =
      ⟨[("SIG", [⟨1, false⟩])], [], [], some .valueError⟩ ∧
    message_in
        (some fun m => (message_handler [("SIG", [⟨1, false⟩])] m).error)
        ["DISPATCH", "u", "SIG"] =
      ⟨[["DISPATCH", "u", "SIG"]], [.debugMessageIn, .exceptionHandlingMessage], none⟩ :=
  ⟨by decide, by decide⟩

/-- Claim C4: for signals that agree after trim-and-uppercase
normalisation, subscribing under one and dispatching the other invokes
the callback — the lookup key is the normalised signal on both paths. -/
theorem C4_subscribe_dispatch_normalized (subs subs' : Subs) (lg : List LogMsg)
    (s1 s2 u dstr rt : String) (cb : Callback) (d : Json)
    (hnorm : pyNormalize s1 = pyNormalize s2)
    (hsub : subscribe subs (.str s1) cb = .ok (subs', lg))
    (hjson : json_loads dstr = .ok d) :
    cb.cid ∈
      (message_handler subs' ["DISPATCH", u, s2, dstr, rt]).invocations.map
        Invocation.cid := by
  obtain ⟨l, hl⟩ := subscribe_lookup subs subs' lg s1 cb hsub
  have hn : pyNormalize s1 ≠ "" := subscribe_normalized_nonempty subs s1 cb (subs', lg) hsub
  have hval : validate_signal (.str s2) = .ok (pyNormalize s1) := by
    simp [validate_signal, ← hnorm, hn]
  rw [message_handler_dispatch]
  simp only [dispatchTry, unpack4, hjson, handle_dispath_message, hval, hl, dispatchHandled]
  rw [runCallbacks_cids]
  simp

/-- Claim C4 witness. -/
theorem C4_witness :
    (⟨3, false⟩ : Callback).cid ∈
      (message_handler [("TEA_TIME", [⟨3, false⟩])]
          ["DISPATCH", "u", "tea_time", "\x7b\x7d", "0"]).invocations.map
        Invocation.cid :=
  C4_subscribe_dispatch_normalized [] [("TEA_TIME", [⟨3, false⟩])] []
    " Tea_Time " "tea_time" "u" "\x7b\x7d" "0" ⟨3, false⟩ (.obj [])
    (by decide) (by decide) (by decide)

/-- Claim C5: `Transceiver.message_out` on anything that is not a list
or tuple raises MessageOutError (the error the spec calls
OutboundMessageError) and performs no network I/O at all. -/
theorem C5_nonseq_send_raises (uri : String) (m : PyObj) (h : isSeq m = false) :
    message_out uri m = ⟨[], some .messageOutError⟩ := by
  simp [message_out, h]

/-- Claim C5 witness. -/
theorem C5_witness :
    isSeq (.str "x") = false ∧
    message_out "tcp://localhost:15567" (.str "x") = ⟨[], some .messageOutError⟩ :=
  ⟨rfl, C5_nonseq_send_raises "tcp://localhost:15567" (.str "x") rfl⟩

/-- Claim C6: on an inbound DISPATCH frame the reply-to handed to every
invoked callback is None exactly when the wire field is the `"0"`
sentinel, and the unchanged wire value otherwise. -/
theorem C6_reply_sentinel (subs : Subs) (u s dstr rt : String) :
    ∀ inv ∈ (message_handler subs ["DISPATCH", u, s, dstr, rt]).invocations,
      inv.replyTo = if rt = "0" then none else some rt := by
  intro inv hmem
  rw [message_handler_dispatch] at hmem
  cases hres : dispatchTry subs [u, s, dstr, rt] with
  | error e =>
      rw [hres] at hmem
      cases e <;> simp [dispatchHandled] at hmem
  | ok r =>
      rw [hres] at hmem
      simp only [dispatchHandled] at hmem
      cases hj : json_loads dstr with
      | error e => simp [dispatchTry, unpack4, hj] at hres
      | ok d =>
          cases hv : validate_signal (.str s) with
          | error e =>
              simp [dispatchTry, unpack4, hj, handle_dispath_message, hv] at hres
          | ok n =>
              cases hl : subsLookup subs n with
              | none =>
                  simp [dispatchTry, unpack4, hj, handle_dispath_message, hv, hl] at hres
                  rw [← hres] at hmem
                  simp at hmem
              | some cbs =>
                  simp [dispatchTry, unpack4, hj, handle_dispath_message, hv, hl] at hres
                  rw [← hres] at hmem
                  exact runCallbacks_replyTo u n d _ cbs inv hmem

/-- Claim C6 witness. -/
theorem C6_witness :
    (⟨5, "u", .obj [], some "rx"⟩ : Invocation).replyTo =
      if "rx" = "0" then none else some "rx" :=
  C6_reply_sentinel [("S", [⟨5, false⟩])] "u" "S" "\x7b\x7d" "rx"
    ⟨5, "u", .obj [], some "rx"⟩ (by decide)

/-- Claim C7: `Transceiver.message_in` hands the raw frame to the
registered handler and its bare `except:` stops any exception the
handler raises — nothing propagates into the receive loop, and the
failure is logged. -/
theorem C7_handler_failure_contained (h : List String → Option PyError)
    (m : List String) :
    (message_in (some h) m).error = none ∧
    (message_in (some h) m).handlerCalls = [m] ∧
    ∀ e, h m = some e →
      LogMsg.exceptionHandlingMessage ∈ (message_in (some h) m).logs := by
  cases hm : h m <;> simp [message_in, hm]

/-- Claim C7 witness. -/
theorem C7_witness :
    (message_in (some fun _ => some .valueError) ["X"]).error = none ∧
    (message_in (some fun _ => some .valueError) ["X"]).handlerCalls = [["X"]] ∧
    LogMsg.exceptionHandlingMessage ∈
      (message_in (some fun _ => some .valueError) ["X"]).logs := by
  obtain ⟨h1, h2, h3⟩ := C7_handler_failure_contained (fun _ => some .valueError) ["X"]
  exact ⟨h1, h2, h3 .valueError rfl⟩

/-- Claim C8: on a dispatched signal every subscriber is invoked in
order even when earlier ones raise; a raising callback is logged against
the signal, no exception leaves the handler, and the subscription table
is untouched, so subsequent frames see the same state. -/
theorem C8_callback_failure_isolated (subs : Subs) (u s dstr rt n : String)
    (d : Json) (cbs : List Callback)
    (hjson : json_loads dstr = .ok d)
    (hval : validate_signal (.str s) = .ok n)
    (hlook : subsLookup subs n = some cbs) :
    (message_handler subs ["DISPATCH", u, s, dstr, rt]).error = none ∧
    (message_handler subs ["DISPATCH", u, s, dstr, rt]).subs = subs ∧
    (message_handler subs ["DISPATCH", u, s, dstr, rt]).invocations.map
        Invocation.cid = cbs.map Callback.cid ∧
    ∀ cb ∈ cbs, cb.raises = true →
      LogMsg.exceptionCallback cb.cid n ∈
        (message_handler subs ["DISPATCH", u, s, dstr, rt]).logs := by
  have hmh : message_handler subs ["DISPATCH", u, s, dstr, rt] =
      dispatchHandled subs
        (.ok (runCallbacks u n d (if rt = "0" then none else some rt) cbs)) := by
    rw [message_handler_dispatch]
    simp [dispatchTry, unpack4, hjson, handle_dispath_message, hval, hlook]
  rw [hmh]
  refine ⟨rfl, rfl, runCallbacks_cids u n d _ cbs, ?_⟩
  exact runCallbacks_raise_logged u n d _ cbs

/-- Claim C8 witness: the first callback raises, the second still runs. -/
theorem C8_witness :
    (message_handler [("S", [⟨1, true⟩, ⟨2, false⟩])]
        ["DISPATCH", "u", "S", "\x7b\x7d", "0"]).error = none ∧
    (message_handler [("S", [⟨1, true⟩, ⟨2, false⟩])]
        ["DISPATCH", "u", "S", "\x7b\x7d", "0"]).subs =
      [("S", [⟨1, true⟩, ⟨2, false⟩])] ∧
    (message_handler [("S", [⟨1, true⟩, ⟨2, false⟩])]
        ["DISPATCH", "u", "S", "\x7b\x7d", "0"]).invocations.map Invocation.cid =
      [1, 2] ∧
    ∀ cb ∈ [(⟨1, true⟩ : Callback), ⟨2, false⟩], cb.raises = true →
      LogMsg.exceptionCallback cb.cid "S" ∈
        (message_handler [("S", [⟨1, true⟩, ⟨2, false⟩])]
            ["DISPATCH", "u", "S", "\x7b\x7d", "0"]).logs :=
  C8_callback_failure_isolated [("S", [⟨1, true⟩, ⟨2, false⟩])] "u" "S"
    "\x7b\x7d" "0" "S" (.obj []) [⟨1, true⟩, ⟨2, false⟩]
    (by decide) (by decide) (by decide)

/-- Claim C9: sending a list or tuple opens a transient connection,
sends the SYNC priming frame first, then the message, then closes —
exactly in this order. -/
theorem C9_sync_precedes_payload (uri : String) (xs : List String) :
    message_out uri (.list xs) =
      ⟨[.connect uri, .sendMultipart sync_message, .sendMultipart xs,
        .close, .contextTerm], none⟩ ∧
    message_out uri (.tuple xs) =
      ⟨[.connect uri, .sendMultipart sync_message, .sendMultipart xs,
        .close, .contextTerm], none⟩ :=
  ⟨rfl, rfl⟩

/-- Claim C10: an empty inbound frame is logged as invalid and dropped —
no exception, no callback invocation, and the subscription table is
returned unchanged. -/
theorem C10_empty_frame_dropped (subs : Subs) :
    message_handler subs [] = ⟨subs, [], [.errorInvalidMessage], none⟩ := rfl

end EvasionMessenger
